import Mathlib

/-
Shallow embedding of the wgpu-study repository (maku693/wgpu-study).

The repository is a series of snapshots of the same small renderer. The
claims touch four distinct revisions, modelled in separate namespaces:

* `RendererRev` : the revision of src/renderer/renderer.rs, src/renderer/mod.rs
  is a distinct earlier revision (`ModRev`), together with src/app.rs,
  src/component.rs and the postprocessing render passes
  (src/renderer/postprocessing/render_pass/bright_pass.rs, and the
  compose / blur down- and upsample passes).
* `ModRev`     : the revision of src/renderer/mod.rs.
* `EntityB` / `BloomRev` : the revision of src/frame_buffers.rs,
  src/bloom_pass.rs, src/composite_pass.rs and src/entity.rs.
* `FlatRev`    : the revision of the flat src/renderer.rs.

GPU handles (device, queue, wgpu objects) are modelled by descriptor
records; object identity of created textures is modelled by explicit
identifier fields, one per create_texture call site. f32 scalar values
that are only ever copied (never computed with) are modelled as `Rat`.
-/

inductive TextureFormat where
  | Rgba16Float
  | Depth32Float
  | Depth24PlusStencil8
  | Bgra8UnormSrgb
deriving DecidableEq

structure TextureUsages where
  render_attachment : Bool
  texture_binding : Bool
deriving DecidableEq

/-- wgpu::TextureUsages::TEXTURE_BINDING | wgpu::TextureUsages::RENDER_ATTACHMENT -/
def TextureUsages.bindingAndAttachment : TextureUsages :=
  { render_attachment := true, texture_binding := true }

/-- wgpu::TextureUsages::RENDER_ATTACHMENT only -/
def TextureUsages.attachmentOnly : TextureUsages :=
  { render_attachment := true, texture_binding := false }

/-- Size from src/window.rs (u32 fields modelled as Nat). -/
structure Size where
  width : Nat
  height : Nat
deriving DecidableEq

namespace RendererRev

/-- Identity of the textures created by RenderTargets::new in
src/renderer/renderer.rs, plus the per-frame surface texture. -/
inductive TexId where
  | color
  | depth
  | brightPass
  | bloomBlurDownsample (i : Nat)
  | bloomBlurUpsample (i : Nat)
  | surfaceTex
deriving DecidableEq

/-- RenderTarget from src/renderer/renderer.rs: a texture view plus its
recorded width and height. `texId` models the texture_view handle,
`format` the format the texture was created with. -/
structure RenderTarget where
  texId : TexId
  width : Nat
  height : Nat
  format : TextureFormat
deriving DecidableEq

instance : Inhabited RenderTarget :=
  ⟨{ texId := TexId.color, width := 0, height := 0, format := TextureFormat.Rgba16Float }⟩

def HDR_TEXTURE_FORMAT : TextureFormat := TextureFormat.Rgba16Float
def DEPTH_TEXTURE_FORMAT : TextureFormat := TextureFormat.Depth32Float

structure RenderTargets where
  color : RenderTarget
  depth : RenderTarget
  bright_pass : RenderTarget
  bloom_blur_downsample : List RenderTarget
  bloom_blur_upsample : List RenderTarget
deriving DecidableEq

/-- RenderTargets::create_render_target_texture_view: creates a 2D texture of
the given size and format with TEXTURE_BINDING | RENDER_ATTACHMENT usage and
returns it with its recorded width and height. -/
def RenderTargets.create_render_target_texture_view
    (texId : TexId) (width height : Nat) (format : TextureFormat) : RenderTarget :=
  { texId := texId, width := width, height := height, format := format }

/-- RenderTargets::new (src/renderer/renderer.rs lines 310 to 368).
The downsample targets use divisor base_divisor * 2 ^ (1 + i) for i in 0..4,
the upsample targets use divisor base_divisor * 2 ^ i for i in (0..4).rev(). -/
def RenderTargets.new (width height : Nat) : RenderTargets :=
  let color := RenderTargets.create_render_target_texture_view
    TexId.color width height HDR_TEXTURE_FORMAT
  let depth := RenderTargets.create_render_target_texture_view
    TexId.depth width height DEPTH_TEXTURE_FORMAT
  let bright_pass := RenderTargets.create_render_target_texture_view
    TexId.brightPass width height HDR_TEXTURE_FORMAT
  let base_divisor := 2
  let num_levels := 4
  let bloom_blur_downsample := (List.range num_levels).map fun i =>
    let divisor := base_divisor * 2 ^ (1 + i)
    RenderTargets.create_render_target_texture_view
      (TexId.bloomBlurDownsample i) (width / divisor) (height / divisor) HDR_TEXTURE_FORMAT
  let bloom_blur_upsample := ((List.range num_levels).reverse).map fun i =>
    let divisor := base_divisor * 2 ^ i
    RenderTargets.create_render_target_texture_view
      (TexId.bloomBlurUpsample i) (width / divisor) (height / divisor) HDR_TEXTURE_FORMAT
  { color := color, depth := depth, bright_pass := bright_pass,
    bloom_blur_downsample := bloom_blur_downsample,
    bloom_blur_upsample := bloom_blur_upsample }

/-- BrightPassRenderPass (render_pass/bright_pass.rs): records the source
texture view bound in its bind group and the color target format of its
pipeline. -/
structure BrightPassRenderPass where
  src : RenderTarget
  format : TextureFormat
deriving DecidableEq

def BrightPassRenderPass.new (src : RenderTarget) (format : TextureFormat) :
    BrightPassRenderPass :=
  { src := src, format := format }

/-- BlurDownsampleRenderPass: the module file is absent from this snapshot
(declared in render_pass/mod.rs); the descriptor records exactly the
constructor arguments at the call site in Renderer::new
(src/renderer/renderer.rs lines 79 to 89): the sampled source texture view,
the color target format, and the intended output width and height. Its draw
samples the recorded source, per the identically structured
blur_upsample.rs present in the steel-tadpole snapshot. -/
structure BlurDownsampleRenderPass where
  src : RenderTarget
  format : TextureFormat
  width : Nat
  height : Nat
deriving DecidableEq

def BlurDownsampleRenderPass.new (src : RenderTarget) (format : TextureFormat)
    (width height : Nat) : BlurDownsampleRenderPass :=
  { src := src, format := format, width := width, height := height }

/-- BlurUpsampleRenderPass: same situation as BlurDownsampleRenderPass,
constructor arguments from src/renderer/renderer.rs lines 101 to 111. -/
structure BlurUpsampleRenderPass where
  src : RenderTarget
  format : TextureFormat
  width : Nat
  height : Nat
deriving DecidableEq

def BlurUpsampleRenderPass.new (src : RenderTarget) (format : TextureFormat)
    (width height : Nat) : BlurUpsampleRenderPass :=
  { src := src, format := format, width := width, height := height }

/-- ComposeRenderPass: records the two sampled texture views (scene color and
last bloom upsample target) and the render target format (the surface
format), per the call site in Renderer::new lines 114 to 123 and the
steel-tadpole compose.rs. -/
structure ComposeRenderPass where
  color_src : RenderTarget
  bloom_src : RenderTarget
  format : TextureFormat
deriving DecidableEq

def ComposeRenderPass.new (color_src bloom_src : RenderTarget)
    (format : TextureFormat) : ComposeRenderPass :=
  { color_src := color_src, bloom_src := bloom_src, format := format }

/-- Renderer from src/renderer/renderer.rs (device, queue and the particle
renderer handle are omitted; surface_width and surface_height model the
surface configuration of configure_surface). -/
structure Renderer where
  surface_format : TextureFormat
  surface_width : Nat
  surface_height : Nat
  render_targets : RenderTargets
  bright_pass_render_pass : BrightPassRenderPass
  bloom_blur_downsample_render_passes : List BlurDownsampleRenderPass
  bloom_blur_upsample_render_passes : List BlurUpsampleRenderPass
  compose_render_pass : ComposeRenderPass
deriving DecidableEq

/-- Renderer::new, body after device and surface format negotiation
(src/renderer/renderer.rs lines 54 to 136). -/
def Renderer.init (surface_format : TextureFormat) (width height : Nat) : Renderer :=
  let render_targets := RenderTargets.new width height
  let bright_pass_render_pass :=
    BrightPassRenderPass.new render_targets.color HDR_TEXTURE_FORMAT
  let bloom_blur_downsample_render_passes :=
    let all_blur_texture_views_but_last :=
      render_targets.bloom_blur_downsample.take
        (render_targets.bloom_blur_downsample.length - 1)
    let src_texture_views := render_targets.bright_pass :: all_blur_texture_views_but_last
    src_texture_views.map fun src_texture_view =>
      BlurDownsampleRenderPass.new src_texture_view HDR_TEXTURE_FORMAT
        (src_texture_view.width / 2) (src_texture_view.height / 2)
  let bloom_blur_upsample_render_passes :=
    let last_blur_downsample_texture_view :=
      render_targets.bloom_blur_downsample.getLast?.toList
    let all_blur_downsample_texture_views_but_last :=
      render_targets.bloom_blur_upsample.take
        (render_targets.bloom_blur_upsample.length - 1)
    let src_texture_views :=
      last_blur_downsample_texture_view ++ all_blur_downsample_texture_views_but_last
    src_texture_views.map fun src_texture_view =>
      BlurUpsampleRenderPass.new src_texture_view HDR_TEXTURE_FORMAT
        (src_texture_view.width * 2) (src_texture_view.height * 2)
  let compose_render_pass :=
    ComposeRenderPass.new render_targets.color
      (render_targets.bloom_blur_upsample.getLast!) surface_format
  { surface_format := surface_format,
    surface_width := width, surface_height := height,
    render_targets := render_targets,
    bright_pass_render_pass := bright_pass_render_pass,
    bloom_blur_downsample_render_passes := bloom_blur_downsample_render_passes,
    bloom_blur_upsample_render_passes := bloom_blur_upsample_render_passes,
    compose_render_pass := compose_render_pass }

/-- Environment of driver responses consumed by Renderer::new: the optional
adapter from request_adapter, the optional preferred surface format from
get_preferred_format, and the fallible device from request_device. -/
structure GpuEnv where
  adapter : Option Unit
  preferred_format : Option TextureFormat
  device : Except String Unit

/-- Renderer::new (src/renderer/renderer.rs lines 33 to 137): request_adapter
with context "No adapter found", get_preferred_format with context
"No preferred format found", request_device propagated with ?, then the
rest of construction. -/
def Renderer.new (env : GpuEnv) (width height : Nat) : Except String Renderer :=
  match env.adapter with
  | none => Except.error "No adapter found"
  | some _ =>
    match env.preferred_format with
    | none => Except.error "No preferred format found"
    | some surface_format =>
      match env.device with
      | Except.error e => Except.error e
      | Except.ok _ => Except.ok (Renderer.init surface_format width height)

/-- Renderer::resize (src/renderer/renderer.rs lines 158 to 184): reconfigure
the surface, rebuild the render targets, the bright pass and the compose
pass. The blur pass lists are not touched by resize, exactly as in the
source. -/
def Renderer.resize (r : Renderer) (size : Size) : Renderer :=
  let render_targets := RenderTargets.new size.width size.height
  { r with
    surface_width := size.width,
    surface_height := size.height,
    render_targets := render_targets,
    bright_pass_render_pass :=
      BrightPassRenderPass.new render_targets.color HDR_TEXTURE_FORMAT,
    compose_render_pass :=
      ComposeRenderPass.new render_targets.color
        (render_targets.bloom_blur_upsample.getLast!) r.surface_format }

namespace component

/-- Vec3 values modelled componentwise as rationals. -/
structure Vec3 where
  x : Rat
  y : Rat
  z : Rat
deriving DecidableEq

structure Quat where
  x : Rat
  y : Rat
  z : Rat
  w : Rat
deriving DecidableEq

/-- component::Transform from src/component.rs. -/
structure Transform where
  position : Vec3
  rotation : Quat
  scale : Vec3
deriving DecidableEq

/-- component::Camera from src/component.rs; the aspect field is named
aspect_ratio in the source. -/
structure Camera where
  fov : Rat
  aspect : Rat
  near : Rat
  far : Rat
  exposure : Rat
deriving DecidableEq

/-- component::Particle from src/component.rs. -/
structure Particle where
  max_count : Nat
  particle_size : Rat
  color_range : Vec3 × Vec3
  position_range : Vec3 × Vec3
deriving DecidableEq

/-- component::Bloom from src/component.rs. -/
structure Bloom where
  intensity : Rat
  threshold : Rat
deriving DecidableEq

end component

namespace entity

/-- entity::Camera of this revision: transform plus camera component. The
entity module file of this revision is absent from the snapshot; the shape
is determined by the Scene literal in App::new (src/app.rs lines 33 to 71)
and the field accesses in src/app.rs and the render passes. -/
structure Camera where
  transform : component.Transform
  camera : component.Camera
deriving DecidableEq

structure Particle where
  transform : component.Transform
  particle : component.Particle
deriving DecidableEq

structure PostProcessing where
  bloom : component.Bloom
deriving DecidableEq

structure Scene where
  camera : Camera
  particle : Particle
  post_processing : PostProcessing
deriving DecidableEq

end entity

/-- Uniforms of render_pass/bright_pass.rs: struct Uniforms with threshold
and intensity fields, filled from scene.post_processing.bloom. -/
structure BrightPassUniforms where
  threshold : Rat
  intensity : Rat
deriving DecidableEq

def BrightPassUniforms.new (scene : entity.Scene) : BrightPassUniforms :=
  { intensity := scene.post_processing.bloom.intensity,
    threshold := scene.post_processing.bloom.threshold }

/-- Uniforms of the compose render pass. The compose module file of this
revision is absent from the snapshot; translated from the same-named
steel-tadpole render_pass/compose.rs, whose Uniforms hold the exposure of
scene.camera.camera. -/
structure ComposeUniforms where
  exposure : Rat
deriving DecidableEq

def ComposeUniforms.new (scene : entity.Scene) : ComposeUniforms :=
  { exposure := scene.camera.camera.exposure }

/-- The uniform buffers written at the top of Renderer::render. -/
inductive UniformBuf where
  | particle
  | brightPass
  | compose
deriving DecidableEq

/-- Values written into the uniform buffers. The particle uniform payload
(camera matrices and particle size, floating point matrix math) is not
modelled; only the bright pass and compose payloads are claimed about. -/
inductive UniformVal where
  | particle
  | bright (u : BrightPassUniforms)
  | compose (u : ComposeUniforms)
deriving DecidableEq

/-- Labels of the render passes recorded by Renderer::render, in the words of
the label strings in the source. -/
inductive PassLabel where
  | particle
  | brightPass
  | blurDownsample (i : Nat)
  | blurUpsample (i : Nat)
  | compose
deriving DecidableEq

/-- Observable GPU commands issued by Renderer::render: per-frame uniform
writes through the queue, recorded render passes with their color
attachment, queue submission and surface presentation. -/
inductive RenderCommand where
  | writeBuffer (buf : UniformBuf) (val : UniformVal)
  | beginRenderPass (label : PassLabel) (attachment : TexId)
  | submit
  | present
deriving DecidableEq

/-- Renderer::render (src/renderer/renderer.rs lines 186 to 292). The method
takes &mut self but assigns no field, so the state component of the result
is the receiver unchanged; the command list mirrors the statement order of
the source: three uniform updates, the particle pass, the bright pass, one
pass per bloom blur downsample target (attachment bloom_blur_downsample[i]),
one pass per bloom blur upsample target, the compose pass on the surface
texture, submit, and present. -/
def Renderer.render (r : Renderer) (scene : entity.Scene) :
    Renderer × List RenderCommand :=
  let updates : List RenderCommand :=
    [RenderCommand.writeBuffer UniformBuf.particle UniformVal.particle,
     RenderCommand.writeBuffer UniformBuf.brightPass
       (UniformVal.bright (BrightPassUniforms.new scene)),
     RenderCommand.writeBuffer UniformBuf.compose
       (UniformVal.compose (ComposeUniforms.new scene))]
  let particle_pass : List RenderCommand :=
    [RenderCommand.beginRenderPass PassLabel.particle r.render_targets.color.texId]
  let bright_pass : List RenderCommand :=
    [RenderCommand.beginRenderPass PassLabel.brightPass r.render_targets.bright_pass.texId]
  let downsample_passes : List RenderCommand :=
    r.render_targets.bloom_blur_downsample.enum.map fun p =>
      RenderCommand.beginRenderPass (PassLabel.blurDownsample p.1) p.2.texId
  let upsample_passes : List RenderCommand :=
    r.render_targets.bloom_blur_upsample.enum.map fun p =>
      RenderCommand.beginRenderPass (PassLabel.blurUpsample p.1) p.2.texId
  let compose_pass : List RenderCommand :=
    [RenderCommand.beginRenderPass PassLabel.compose TexId.surfaceTex]
  (r, updates ++ particle_pass ++ bright_pass ++ downsample_passes ++ upsample_passes
      ++ compose_pass ++ [RenderCommand.submit, RenderCommand.present])

/-- The per-frame downsample draw pairing: pass i of
bloom_blur_downsample_render_passes draws into render target
bloom_blur_downsample[i] (the loop at src/renderer/renderer.rs lines
234 to 248). -/
def Renderer.blurDownsampleDraws (r : Renderer) :
    List (BlurDownsampleRenderPass × RenderTarget) :=
  r.bloom_blur_downsample_render_passes.zip r.render_targets.bloom_blur_downsample

/-- The per-frame upsample draw pairing: pass i of
bloom_blur_upsample_render_passes draws into render target
bloom_blur_upsample[i] (the loop at lines 250 to 264). -/
def Renderer.blurUpsampleDraws (r : Renderer) :
    List (BlurUpsampleRenderPass × RenderTarget) :=
  r.bloom_blur_upsample_render_passes.zip r.render_targets.bloom_blur_upsample

/-- App from src/app.rs (the window handle is reduced to its inner size; the
construction instant is omitted). -/
structure App where
  window_inner_size : Size
  scene : entity.Scene
  renderer : Renderer
  cursor_locked : Bool
deriving DecidableEq

/-- App::on_resize (src/app.rs lines 85 to 95): ignore the event when the
reported width or height exceeds the window's current inner size, else set
the camera aspect ratio to width over height and resize the renderer. -/
def App.on_resize (app : App) (size : Size) : App :=
  if size.width > app.window_inner_size.width
      || size.height > app.window_inner_size.height then
    app
  else
    { app with
      scene := { app.scene with
        camera := { app.scene.camera with
          camera := { app.scene.camera.camera with
            aspect := (size.width : Rat) / (size.height : Rat) } } },
      renderer := app.renderer.resize size }

end RendererRev

namespace ModRev

/-- Texture descriptor as created by Renderer::create_depth_texture in
src/renderer/mod.rs. -/
structure TextureDesc where
  label : String
  width : Nat
  height : Nat
  format : TextureFormat
  usage : TextureUsages
deriving DecidableEq

/-- Renderer from src/renderer/mod.rs (surface, device and queue handles are
reduced to the surface configuration). -/
structure Renderer where
  surface_format : TextureFormat
  surface_width : Nat
  surface_height : Nat
  depth_texture : TextureDesc
  depth_texture_format : TextureFormat
deriving DecidableEq

def Renderer.create_depth_texture (format : TextureFormat) (width height : Nat) :
    TextureDesc :=
  { label := "Depth texture", width := width, height := height,
    format := format, usage := TextureUsages.attachmentOnly }

/-- Renderer::new (src/renderer/mod.rs lines 17 to 71): request_adapter with
context "No adapter found", request_device with context "No device found",
get_preferred_format with context "There is no preferred format", then
surface configuration and depth texture creation. -/
def Renderer.new (env : RendererRev.GpuEnv) (width height : Nat) :
    Except String Renderer :=
  match env.adapter with
  | none => Except.error "No adapter found"
  | some _ =>
    match env.device with
    | Except.error _ => Except.error "No device found"
    | Except.ok _ =>
      match env.preferred_format with
      | none => Except.error "There is no preferred format"
      | some surface_format =>
        let depth_texture_format := TextureFormat.Depth32Float
        Except.ok
          { surface_format := surface_format,
            surface_width := width, surface_height := height,
            depth_texture :=
              Renderer.create_depth_texture depth_texture_format width height,
            depth_texture_format := depth_texture_format }

end ModRev

namespace EntityB

/-- entity::Camera from src/entity.rs. The aspect field is named aspect_ratio
in the source. Scalar f32 fields are modelled as Rat. -/
structure Camera where
  transform : RendererRev.component.Transform
  fov : Rat
  aspect : Rat
  near : Rat
  far : Rat
  exposure : Rat
deriving DecidableEq

/-- entity::ParticleSystem from src/entity.rs. -/
structure ParticleSystem where
  transform : RendererRev.component.Transform
  max_count : Nat
  particle_size : Rat
  lifetime : Nat
  min_speed : Rat
  max_speed : Rat
deriving DecidableEq

/-- entity::BloomEffect from src/entity.rs (u32 fields in the source). -/
structure BloomEffect where
  intensity : Nat
  threshold : Nat
deriving DecidableEq

/-- entity::Scene from src/entity.rs. -/
structure Scene where
  camera : Camera
  particle_system : ParticleSystem
  bloom_effect : BloomEffect
deriving DecidableEq

end EntityB

namespace BloomRev

/-- Identity of the textures created by FrameBuffers::new in
src/frame_buffers.rs; each create_texture call allocates a distinct
texture, the index distinguishes the three bloom blur buffer allocations.
bloomBuffer stands for the frame_buffers.bloom_buffer field referenced by
CompositePass::draw, a field absent from the FrameBuffers struct of this
snapshot. -/
inductive TexId where
  | color
  | depth
  | bright
  | bloomBlur (i : Nat)
  | bloomBuffer
deriving DecidableEq

structure Texture where
  id : TexId
  label : String
  width : Nat
  height : Nat
  format : TextureFormat
  usage : TextureUsages
deriving DecidableEq

inductive Aspect where
  | all
  | depthOnly
deriving DecidableEq

/-- Texture view: the viewed texture plus the aspect of the view descriptor. -/
structure TextureView where
  tex : Texture
  aspect : Aspect
deriving DecidableEq

/-- FrameBuffer from src/frame_buffers.rs. -/
structure FrameBuffer where
  texture : Texture
  texture_view : TextureView
  format : TextureFormat
deriving DecidableEq

/-- FrameBuffer::new_hdr_color: an Rgba16Float texture with
TEXTURE_BINDING | RENDER_ATTACHMENT usage and a default view. -/
def FrameBuffer.new_hdr_color (id : TexId) (width height : Nat) : FrameBuffer :=
  let format := TextureFormat.Rgba16Float
  let texture : Texture :=
    { id := id, label := "HDR Color Texture", width := width, height := height,
      format := format, usage := TextureUsages.bindingAndAttachment }
  { texture := texture,
    texture_view := { tex := texture, aspect := Aspect.all },
    format := format }

/-- FrameBuffers from src/frame_buffers.rs. -/
structure FrameBuffers where
  color_texture : Texture
  color_texture_view : TextureView
  depth_texture : Texture
  depth_texture_view : TextureView
  bright_texture : Texture
  bright_texture_view : TextureView
  bloom_blur_buffers : List FrameBuffer
deriving DecidableEq

def FrameBuffers.COLOR_FORMAT : TextureFormat := TextureFormat.Rgba16Float
def FrameBuffers.DEPTH_FORMAT : TextureFormat := TextureFormat.Depth24PlusStencil8
def FrameBuffers.BLOOM_FORMAT : TextureFormat := TextureFormat.Rgba16Float

def FrameBuffers.create_color_texture (width height : Nat) : Texture :=
  { id := TexId.color, label := "Offscreen Color Texture",
    width := width, height := height, format := FrameBuffers.COLOR_FORMAT,
    usage := TextureUsages.bindingAndAttachment }

def FrameBuffers.create_color_texture_view (texture : Texture) : TextureView :=
  { tex := texture, aspect := Aspect.all }

def FrameBuffers.create_depth_texture (width height : Nat) : Texture :=
  { id := TexId.depth, label := "Depth Texture",
    width := width, height := height, format := FrameBuffers.DEPTH_FORMAT,
    usage := TextureUsages.attachmentOnly }

def FrameBuffers.create_depth_texture_view (texture : Texture) : TextureView :=
  { tex := texture, aspect := Aspect.depthOnly }

/-- FrameBuffers::create_bright_texture: the bright texture is created at a
quarter of the window size in each dimension. -/
def FrameBuffers.create_bright_texture (width height : Nat) : Texture :=
  { id := TexId.bright, label := "Bloom Bright Texture",
    width := width / 4, height := height / 4, format := FrameBuffers.BLOOM_FORMAT,
    usage := TextureUsages.bindingAndAttachment }

def FrameBuffers.create_bright_texture_view (texture : Texture) : TextureView :=
  { tex := texture, aspect := Aspect.all }

/-- FrameBuffers::create_bloom_blur_buffers (src/frame_buffers.rs lines 144 to
154): three HDR color buffers, all at a quarter of the window size. The
source maps (0..3) ignoring the index; the index is used here only as the
identity of each distinct allocation. -/
def FrameBuffers.create_bloom_blur_buffers (base_width base_height : Nat) :
    List FrameBuffer :=
  let width := base_width / 4
  let height := base_height / 4
  (List.range 3).map fun i => FrameBuffer.new_hdr_color (TexId.bloomBlur i) width height

/-- FrameBuffers::new (src/frame_buffers.rs lines 53 to 74). -/
def FrameBuffers.new (width height : Nat) : FrameBuffers :=
  let color_texture := FrameBuffers.create_color_texture width height
  let color_texture_view := FrameBuffers.create_color_texture_view color_texture
  let depth_texture := FrameBuffers.create_depth_texture width height
  let depth_texture_view := FrameBuffers.create_depth_texture_view depth_texture
  let bright_texture := FrameBuffers.create_bright_texture width height
  let bright_texture_view := FrameBuffers.create_bright_texture_view bright_texture
  let bloom_blur_buffers := FrameBuffers.create_bloom_blur_buffers width height
  { color_texture := color_texture, color_texture_view := color_texture_view,
    depth_texture := depth_texture, depth_texture_view := depth_texture_view,
    bright_texture := bright_texture, bright_texture_view := bright_texture_view,
    bloom_blur_buffers := bloom_blur_buffers }

/-- FrameBuffers::resize (src/frame_buffers.rs lines 156 to 164): every field
is overwritten with a freshly created texture or view for the new size. -/
def FrameBuffers.resize (_fb : FrameBuffers) (width height : Nat) : FrameBuffers :=
  let color_texture := FrameBuffers.create_color_texture width height
  let color_texture_view := FrameBuffers.create_color_texture_view color_texture
  let depth_texture := FrameBuffers.create_depth_texture width height
  let depth_texture_view := FrameBuffers.create_depth_texture_view depth_texture
  let bright_texture := FrameBuffers.create_bright_texture width height
  let bright_texture_view := FrameBuffers.create_bright_texture_view bright_texture
  let bloom_blur_buffers := FrameBuffers.create_bloom_blur_buffers width height
  { color_texture := color_texture, color_texture_view := color_texture_view,
    depth_texture := depth_texture, depth_texture_view := depth_texture_view,
    bright_texture := bright_texture, bright_texture_view := bright_texture_view,
    bloom_blur_buffers := bloom_blur_buffers }

/-- BlurPass from src/bloom_pass.rs: the single bind group holds the one
sampled texture view, created from frame_buffers.bright_texture_view in
BlurPass::new (lines 302 to 307). -/
structure BlurPass where
  blur_bind_group : TexId
deriving DecidableEq

def BlurPass.new (frame_buffers : FrameBuffers) : BlurPass :=
  { blur_bind_group := frame_buffers.bright_texture_view.tex.id }

/-- One blur stage as recorded by BlurPass::draw: the texture sampled through
the bind group and the texture attached as the render target. -/
structure BlurDraw where
  sampled : TexId
  attachment : TexId
deriving DecidableEq

/-- BlurPass::draw (src/bloom_pass.rs lines 390 to 408): one render pass per
bloom blur buffer, each setting the same blur_bind_group and attaching that
buffer's texture view. -/
def BlurPass.draw (p : BlurPass) (frame_buffers : FrameBuffers) : List BlurDraw :=
  frame_buffers.bloom_blur_buffers.map fun buffer =>
    { sampled := p.blur_bind_group, attachment := buffer.texture_view.tex.id }

/-- CompositePass from src/bloom_pass.rs: one bind group per bloom blur
buffer, each holding that buffer's texture view (lines 445 to 455). -/
structure CompositePass where
  composite_bind_groups : List TexId
deriving DecidableEq

def CompositePass.new (frame_buffers : FrameBuffers) : CompositePass :=
  { composite_bind_groups :=
      frame_buffers.bloom_blur_buffers.map fun buf => buf.texture_view.tex.id }

/-- Rust slice indexing xs[lo..hi]: panics unless lo <= hi <= xs.len().
The panic is modelled as none. -/
def rustSlice (xs : List α) (lo hi : Nat) : Option (List α) :=
  if lo ≤ hi ∧ hi ≤ xs.length then some ((xs.drop lo).take (hi - lo)) else none

/-- CompositePass::draw (src/bloom_pass.rs lines 566 to 583): iterates over
the slice composite_bind_groups[3..4], recording one render pass per bind
group in the slice; none models the panic of an out-of-bounds slice. -/
def CompositePass.draw (p : CompositePass) : Option (List TexId) :=
  rustSlice p.composite_bind_groups 3 4

end BloomRev

namespace FlatRev

/-- The GPU resources created by Renderer::new in the flat src/renderer.rs,
one constructor per creation call site. -/
inductive Resource where
  | surface
  | colorTexture
  | depthTexture
  | sampler
  | stagingBelt
  | particleUniformBuffer
  | particleVertexBuffer
  | particleIndexBuffer
  | particleInstanceBuffer
  | particleBindGroupLayout
  | particleBindGroup
  | particleShaderModule
  | particlePipelineLayout
  | particleRenderPipeline
  | particleRenderBundle
  | compositeUniformBuffer
  | compositeBindGroupLayout
  | compositeBindGroup
  | compositePipelineLayout
  | compositeShaderModule
  | compositeRenderPipeline
deriving DecidableEq

/-- Values uploaded through the staging belt each frame; the particle payload
(camera matrices, floating point math) is not modelled. -/
inductive UniformVal where
  | particle
  | composite (exposure : Rat)
deriving DecidableEq

/-- Staging belt operations, kept as the belt's state log. -/
inductive BeltOp where
  | write (buf : Resource) (val : UniformVal)
  | finish
  | recall
deriving DecidableEq

/-- Color attachments used by the two render passes of Renderer::render. -/
inductive Attachment where
  | colorTexture
  | surfaceTex
deriving DecidableEq

/-- Observable GPU commands of the flat renderer. -/
inductive GpuCommand where
  | create (res : Resource)
  | configureSurface (width height : Nat)
  | beltWrite (buf : Resource) (val : UniformVal)
  | beltFinish
  | beginRenderPass (attachment : Attachment)
  | submit
  | present
  | beltRecall
deriving DecidableEq

/-- The resources created in a command log, in order. -/
def createdResources (log : List GpuCommand) : List Resource :=
  log.filterMap fun c =>
    match c with
    | GpuCommand.create res => some res
    | _ => none

structure TextureDesc where
  label : String
  width : Nat
  height : Nat
  format : TextureFormat
  usage : TextureUsages
deriving DecidableEq

/-- FrameBuffers private to the flat src/renderer.rs (lines 583 to 660). -/
structure FrameBuffers where
  color_texture : TextureDesc
  depth_texture : TextureDesc
deriving DecidableEq

def FrameBuffers.COLOR_FORMAT : TextureFormat := TextureFormat.Rgba16Float
def FrameBuffers.DEPTH_FORMAT : TextureFormat := TextureFormat.Depth24PlusStencil8

def FrameBuffers.create_color_texture (width height : Nat) : TextureDesc :=
  { label := "Offscreen Color Texture", width := width, height := height,
    format := FrameBuffers.COLOR_FORMAT,
    usage := TextureUsages.bindingAndAttachment }

def FrameBuffers.create_depth_texture (width height : Nat) : TextureDesc :=
  { label := "Depth Texture", width := width, height := height,
    format := FrameBuffers.DEPTH_FORMAT,
    usage := TextureUsages.attachmentOnly }

def FrameBuffers.new (width height : Nat) : FrameBuffers :=
  { color_texture := FrameBuffers.create_color_texture width height,
    depth_texture := FrameBuffers.create_depth_texture width height }

def FrameBuffers.resize (_fb : FrameBuffers) (width height : Nat) : FrameBuffers :=
  { color_texture := FrameBuffers.create_color_texture width height,
    depth_texture := FrameBuffers.create_depth_texture width height }

/-- CompositeUniforms from the flat src/renderer.rs (lines 76 to 86). -/
structure CompositeUniforms where
  exposure : Rat
deriving DecidableEq

def CompositeUniforms.new (scene : EntityB.Scene) : CompositeUniforms :=
  { exposure := scene.camera.exposure }

structure SamplerDesc where
  mag_filter_linear : Bool
  min_filter_linear : Bool
deriving DecidableEq

/-- The pre-recorded particle render bundle: draw_indexed over the six quad
indices, instanced max_count times (lines 314 to 327). -/
structure RenderBundleDesc where
  index_count : Nat
  instance_count : Nat
deriving DecidableEq

structure PipelineDesc where
  target_format : TextureFormat
deriving DecidableEq

/-- Renderer from the flat src/renderer.rs. Handle fields are modelled by the
descriptors of what they bind or hold; the staging belt by the log of
operations performed on it. -/
structure Renderer where
  surface_format : TextureFormat
  surface_width : Nat
  surface_height : Nat
  frame_buffers : FrameBuffers
  staging_belt : List BeltOp
  sampler : SamplerDesc
  particle_render_bundle : RenderBundleDesc
  composite_bind_group : TextureDesc
  composite_render_pipeline : PipelineDesc
deriving DecidableEq

/-- Renderer::new (flat src/renderer.rs lines 104 to 430), after adapter,
format and device negotiation; returns the constructed state and the
ordered log of GPU commands issued. The contents of the randomly seeded
particle instance buffer are not modelled, only its creation. -/
def Renderer.new (surface_format : TextureFormat) (width height : Nat)
    (scene : EntityB.Scene) : Renderer × List GpuCommand :=
  let frame_buffers := FrameBuffers.new width height
  let renderer : Renderer :=
    { surface_format := surface_format,
      surface_width := width, surface_height := height,
      frame_buffers := frame_buffers,
      staging_belt := [],
      sampler := { mag_filter_linear := true, min_filter_linear := true },
      particle_render_bundle :=
        { index_count := 6, instance_count := scene.particle_system.max_count },
      composite_bind_group := frame_buffers.color_texture,
      composite_render_pipeline := { target_format := surface_format } }
  (renderer,
   [GpuCommand.create Resource.surface,
    GpuCommand.configureSurface width height,
    GpuCommand.create Resource.colorTexture,
    GpuCommand.create Resource.depthTexture,
    GpuCommand.create Resource.sampler,
    GpuCommand.create Resource.stagingBelt,
    GpuCommand.create Resource.particleUniformBuffer,
    GpuCommand.create Resource.particleVertexBuffer,
    GpuCommand.create Resource.particleIndexBuffer,
    GpuCommand.create Resource.particleInstanceBuffer,
    GpuCommand.create Resource.particleBindGroupLayout,
    GpuCommand.create Resource.particleBindGroup,
    GpuCommand.create Resource.particleShaderModule,
    GpuCommand.create Resource.particlePipelineLayout,
    GpuCommand.create Resource.particleRenderPipeline,
    GpuCommand.create Resource.particleRenderBundle,
    GpuCommand.create Resource.compositeUniformBuffer,
    GpuCommand.create Resource.compositeBindGroupLayout,
    GpuCommand.create Resource.compositeBindGroup,
    GpuCommand.create Resource.compositePipelineLayout,
    GpuCommand.create Resource.compositeShaderModule,
    GpuCommand.create Resource.compositeRenderPipeline])

/-- Renderer::render (flat src/renderer.rs lines 473 to 553): two staging
belt writes and a finish, the particle pass into the offscreen color
texture, the composite pass into the surface texture, submit, present, and
the belt recall. The only field assigned through &mut self is the staging
belt. -/
def Renderer.render (r : Renderer) (scene : EntityB.Scene) :
    Renderer × List GpuCommand :=
  let composite_uniforms := CompositeUniforms.new scene
  let ops : List BeltOp :=
    [BeltOp.write Resource.particleUniformBuffer UniformVal.particle,
     BeltOp.write Resource.compositeUniformBuffer
       (UniformVal.composite composite_uniforms.exposure),
     BeltOp.finish,
     BeltOp.recall]
  ({ r with staging_belt := r.staging_belt ++ ops },
   [GpuCommand.beltWrite Resource.particleUniformBuffer UniformVal.particle,
    GpuCommand.beltWrite Resource.compositeUniformBuffer
      (UniformVal.composite composite_uniforms.exposure),
    GpuCommand.beltFinish,
    GpuCommand.beginRenderPass Attachment.colorTexture,
    GpuCommand.beginRenderPass Attachment.surfaceTex,
    GpuCommand.submit,
    GpuCommand.present,
    GpuCommand.beltRecall])

end FlatRev

namespace RendererRev

/-- The post-processing pass label recorded by a command, if any; the particle
pass renders the scene and is not a post-processing pass. -/
def postLabel : RenderCommand → Option PassLabel
  | RenderCommand.beginRenderPass PassLabel.particle _ => none
  | RenderCommand.beginRenderPass l _ => some l
  | _ => none

/-- Whether a command records a render pass. -/
def RenderCommand.isBeginRenderPass : RenderCommand → Bool
  | RenderCommand.beginRenderPass _ _ => true
  | _ => false

/-- Whether a command is a uniform buffer write. -/
def RenderCommand.isWriteBuffer : RenderCommand → Bool
  | RenderCommand.writeBuffer _ _ => true
  | _ => false

/-- A concrete scene in the shape of the literal built by App::new
(src/app.rs lines 33 to 71), used as a sample input. -/
def sampleScene : entity.Scene :=
  { camera :=
      { transform :=
          { position := { x := 0, y := 0, z := 0 },
            rotation := { x := 0, y := 0, z := 0, w := 1 },
            scale := { x := 1, y := 1, z := 1 } },
        camera := { fov := 60, aspect := 4 / 3, near := 1 / 10, far := 1000,
                    exposure := 1 } },
    particle :=
      { transform :=
          { position := { x := 0, y := 0, z := 10 },
            rotation := { x := 0, y := 0, z := 0, w := 1 },
            scale := { x := 3 / 2, y := 3 / 2, z := 3 / 2 } },
        particle :=
          { max_count := 1000, particle_size := 1 / 100,
            color_range := ({ x := 5, y := 5, z := 5 }, { x := 50, y := 50, z := 50 }),
            position_range :=
              ({ x := -(1 / 2), y := -(1 / 2), z := -(1 / 2) },
               { x := 1 / 2, y := 1 / 2, z := 1 / 2 }) } },
    post_processing := { bloom := { intensity := 1, threshold := 1 } } }

/-- A concrete app state over an 800 by 600 window, used as a sample input. -/
def sampleApp : App :=
  { window_inner_size := { width := 800, height := 600 },
    scene := sampleScene,
    renderer := Renderer.init TextureFormat.Bgra8UnormSrgb 800 600,
    cursor_locked := false }

end RendererRev

/-- Whether a fallible computation succeeded. -/
def exceptIsOk : Except ε α → Bool
  | Except.ok _ => true
  | Except.error _ => false

/-- The resources created by Renderer::new in the flat src/renderer.rs, in
creation order. -/
def FlatRev.Renderer.newCreatedResources : List FlatRev.Resource :=
  [FlatRev.Resource.surface, FlatRev.Resource.colorTexture,
   FlatRev.Resource.depthTexture, FlatRev.Resource.sampler,
   FlatRev.Resource.stagingBelt, FlatRev.Resource.particleUniformBuffer,
   FlatRev.Resource.particleVertexBuffer, FlatRev.Resource.particleIndexBuffer,
   FlatRev.Resource.particleInstanceBuffer, FlatRev.Resource.particleBindGroupLayout,
   FlatRev.Resource.particleBindGroup, FlatRev.Resource.particleShaderModule,
   FlatRev.Resource.particlePipelineLayout, FlatRev.Resource.particleRenderPipeline,
   FlatRev.Resource.particleRenderBundle, FlatRev.Resource.compositeUniformBuffer,
   FlatRev.Resource.compositeBindGroupLayout, FlatRev.Resource.compositeBindGroup,
   FlatRev.Resource.compositePipelineLayout, FlatRev.Resource.compositeShaderModule,
   FlatRev.Resource.compositeRenderPipeline]

/-
Theorems. Each claim of the specification is settled below; a claim's
theorem is preceded by a doc comment naming the claim.
-/

/-- C1 (amended): in the bloom pass sequence built by Renderer::new, every
blur downsample pass other than the first writes into a render target of
exactly half (floor division) the width and height of the texture it
samples; the first downsample pass samples the full-resolution bright-pass
texture at (w, h), was constructed with output size (w / 2, h / 2), but
writes into the first downsample target at (w / 4, h / 4); every pass was
constructed with an output size of exactly half (downsample) or double
(upsample) its source; each upsample pass writes into the target of the
next larger pyramid level, which is exactly double its source whenever 32
divides w and h; every pass and target uses the Rgba16Float format; and
each pass's output texture is exactly the texture the next pass was
constructed to sample. -/
theorem c1_blur_pass_output_vs_source (fmt : TextureFormat) (w h : Nat) :
    let r := RendererRev.Renderer.init fmt w h
    let dd := r.blurDownsampleDraws
    let ud := r.blurUpsampleDraws
    ((32 ∣ w) → (32 ∣ h) →
      ∀ pr ∈ ud, pr.2.width = 2 * pr.1.src.width ∧ pr.2.height = 2 * pr.1.src.height) ∧
    (∀ pr ∈ dd, pr.1.format = TextureFormat.Rgba16Float ∧
        pr.2.format = TextureFormat.Rgba16Float ∧
        pr.1.src.format = TextureFormat.Rgba16Float) ∧
    (∀ pr ∈ ud, pr.1.format = TextureFormat.Rgba16Float ∧
        pr.2.format = TextureFormat.Rgba16Float ∧
        pr.1.src.format = TextureFormat.Rgba16Float) ∧
    (dd.head?.map fun pr =>
        (pr.1.src.texId, pr.1.src.width, pr.1.src.height,
         pr.1.width, pr.1.height, pr.2.texId, pr.2.width, pr.2.height)) =
      some (RendererRev.TexId.brightPass, w, h, w / 2, h / 2,
        RendererRev.TexId.bloomBlurDownsample 0, w / 4, h / 4) ∧
    (∀ pr ∈ dd.tail, pr.2.width = pr.1.src.width / 2 ∧ pr.2.height = pr.1.src.height / 2) ∧
    (∀ pr ∈ dd, pr.1.width = pr.1.src.width / 2 ∧ pr.1.height = pr.1.src.height / 2) ∧
    (∀ pr ∈ ud, pr.1.width = pr.1.src.width * 2 ∧ pr.1.height = pr.1.src.height * 2) ∧
    (∀ p ∈ dd.zip dd.tail, p.2.1.src = p.1.2) ∧
    (∀ p ∈ ud.zip ud.tail, p.2.1.src = p.1.2) ∧
    ud.head?.map (fun pr => pr.1.src) = dd.getLast?.map (fun pr => pr.2) := by
  intro r dd ud
  refine ⟨?_, ?_, ?_, rfl, ?_, ?_, ?_, ?_, ?_, rfl⟩
  · rintro ⟨a, rfl⟩ ⟨b, rfl⟩
    simp [ud, r, RendererRev.Renderer.init, RendererRev.RenderTargets.new,
      RendererRev.RenderTargets.create_render_target_texture_view,
      RendererRev.Renderer.blurUpsampleDraws,
      RendererRev.BlurUpsampleRenderPass.new, List.range_succ]
    all_goals omega
  · simp [dd, r, RendererRev.Renderer.init, RendererRev.RenderTargets.new,
      RendererRev.RenderTargets.create_render_target_texture_view,
      RendererRev.Renderer.blurDownsampleDraws,
      RendererRev.BlurDownsampleRenderPass.new, RendererRev.HDR_TEXTURE_FORMAT,
      List.range_succ]
  · simp [ud, r, RendererRev.Renderer.init, RendererRev.RenderTargets.new,
      RendererRev.RenderTargets.create_render_target_texture_view,
      RendererRev.Renderer.blurUpsampleDraws,
      RendererRev.BlurUpsampleRenderPass.new, RendererRev.HDR_TEXTURE_FORMAT,
      List.range_succ]
  · simp [dd, r, RendererRev.Renderer.init, RendererRev.RenderTargets.new,
      RendererRev.RenderTargets.create_render_target_texture_view,
      RendererRev.Renderer.blurDownsampleDraws,
      RendererRev.BlurDownsampleRenderPass.new, List.range_succ]
    all_goals omega
  · simp [dd, r, RendererRev.Renderer.init, RendererRev.RenderTargets.new,
      RendererRev.RenderTargets.create_render_target_texture_view,
      RendererRev.Renderer.blurDownsampleDraws,
      RendererRev.BlurDownsampleRenderPass.new, List.range_succ]
  · simp [ud, r, RendererRev.Renderer.init, RendererRev.RenderTargets.new,
      RendererRev.RenderTargets.create_render_target_texture_view,
      RendererRev.Renderer.blurUpsampleDraws,
      RendererRev.BlurUpsampleRenderPass.new, List.range_succ]
  · simp [dd, r, RendererRev.Renderer.init, RendererRev.RenderTargets.new,
      RendererRev.RenderTargets.create_render_target_texture_view,
      RendererRev.Renderer.blurDownsampleDraws,
      RendererRev.BlurDownsampleRenderPass.new, List.range_succ]
  · simp [ud, r, RendererRev.Renderer.init, RendererRev.RenderTargets.new,
      RendererRev.RenderTargets.create_render_target_texture_view,
      RendererRev.Renderer.blurUpsampleDraws,
      RendererRev.BlurUpsampleRenderPass.new, List.range_succ]

/-- C1 counterexample: at window size (48, 48) the first blur downsample pass
samples the 48 by 48 bright texture but writes a 12 by 12 target (not half),
and the first upsample pass samples the 1 by 1 last downsample target but
writes a 3 by 3 target (not double); so neither the halving nor the
doubling part of the claim holds as stated. -/
theorem c1_counterexample_pass_not_half_or_double :
    (¬ ∀ pr ∈ (RendererRev.Renderer.init TextureFormat.Bgra8UnormSrgb 48 48).blurDownsampleDraws,
        pr.2.width = pr.1.src.width / 2 ∧ pr.2.height = pr.1.src.height / 2) ∧
    (¬ ∀ pr ∈ (RendererRev.Renderer.init TextureFormat.Bgra8UnormSrgb 48 48).blurUpsampleDraws,
        pr.2.width = pr.1.src.width * 2 ∧ pr.2.height = pr.1.src.height * 2) := by
  constructor <;> decide

/-- C1 witness: at size (64, 64), which 32 divides, every upsample pass
writes exactly double its source. -/
theorem c1_witness_upsample_doubles_at_64 :
    (32 ∣ 64) ∧
    ∀ pr ∈ (RendererRev.Renderer.init TextureFormat.Bgra8UnormSrgb 64 64).blurUpsampleDraws,
      pr.2.width = 2 * pr.1.src.width ∧ pr.2.height = 2 * pr.1.src.height :=
  ⟨by decide,
   fun pr hpr =>
     (c1_blur_pass_output_vs_source TextureFormat.Bgra8UnormSrgb 64 64).1
       (by decide) (by decide) pr hpr⟩

/-- C2 (amended): in RenderTargets::new the bloom blur downsample targets
form a cascade of progressively (floor) halved resolutions, and the bloom
blur upsample targets form the reversed cascade, each target exactly half
its successor; the bloom blur buffers of FrameBuffers::new, by contrast,
are all created at the same quarter resolution (w / 4, h / 4). -/
theorem c2_blur_target_cascade (w h : Nat) :
    (∀ p ∈ (RendererRev.RenderTargets.new w h).bloom_blur_downsample.zip
        (RendererRev.RenderTargets.new w h).bloom_blur_downsample.tail,
      p.2.width = p.1.width / 2 ∧ p.2.height = p.1.height / 2) ∧
    (∀ p ∈ (RendererRev.RenderTargets.new w h).bloom_blur_upsample.zip
        (RendererRev.RenderTargets.new w h).bloom_blur_upsample.tail,
      p.1.width = p.2.width / 2 ∧ p.1.height = p.2.height / 2) ∧
    (∀ buf ∈ BloomRev.FrameBuffers.create_bloom_blur_buffers w h,
      buf.texture.width = w / 4 ∧ buf.texture.height = h / 4) := by
  refine ⟨?_, ?_, ?_⟩ <;>
    simp [RendererRev.RenderTargets.new,
      RendererRev.RenderTargets.create_render_target_texture_view,
      BloomRev.FrameBuffers.create_bloom_blur_buffers,
      BloomRev.FrameBuffer.new_hdr_color, List.range_succ] <;>
    omega

/-- C2 counterexample: the bloom blur buffers created by FrameBuffers::new at
window size (256, 256) are all 64 by 64, so the second buffer does not have
half the resolution of the first. -/
theorem c2_counterexample_equal_sized_buffers :
    ¬ ∀ p ∈ (BloomRev.FrameBuffers.new 256 256).bloom_blur_buffers.zip
          (BloomRev.FrameBuffers.new 256 256).bloom_blur_buffers.tail,
        p.2.texture.width = p.1.texture.width / 2 ∧
        p.2.texture.height = p.1.texture.height / 2 := by
  decide

/-- C3 (amended): in the renderer.rs revision the blur passes do form a
chain: the first downsample pass samples the bright-pass texture, each
later pass samples exactly the target written by the immediately preceding
pass, the first upsample pass samples the last downsample target, and no
two blur passes sample the same texture; in the bloom_pass.rs revision,
however, every one of the three blur stages of BlurPass::draw samples the
same bright texture through the single shared bind group. -/
theorem c3_blur_sampling_chain (fmt : TextureFormat) (w h wb hb : Nat) :
    let r := RendererRev.Renderer.init fmt w h
    let dd := r.blurDownsampleDraws
    let ud := r.blurUpsampleDraws
    (dd.head?.map fun pr => pr.1.src.texId) = some RendererRev.TexId.brightPass ∧
    (∀ p ∈ dd.zip dd.tail, p.2.1.src = p.1.2) ∧
    (∀ p ∈ ud.zip ud.tail, p.2.1.src = p.1.2) ∧
    ud.head?.map (fun pr => pr.1.src) = dd.getLast?.map (fun pr => pr.2) ∧
    ((dd.map fun pr => pr.1.src.texId) ++ (ud.map fun pr => pr.1.src.texId)).Nodup ∧
    (∀ d ∈ (BloomRev.BlurPass.new (BloomRev.FrameBuffers.new wb hb)).draw
        (BloomRev.FrameBuffers.new wb hb),
      d.sampled = BloomRev.TexId.bright) := by
  intro r dd ud
  refine ⟨rfl, ?_, ?_, rfl, ?_, ?_⟩
  · simp [dd, r, RendererRev.Renderer.init, RendererRev.RenderTargets.new,
      RendererRev.RenderTargets.create_render_target_texture_view,
      RendererRev.Renderer.blurDownsampleDraws,
      RendererRev.BlurDownsampleRenderPass.new, List.range_succ]
  · simp [ud, r, RendererRev.Renderer.init, RendererRev.RenderTargets.new,
      RendererRev.RenderTargets.create_render_target_texture_view,
      RendererRev.Renderer.blurUpsampleDraws,
      RendererRev.BlurUpsampleRenderPass.new, List.range_succ]
  · simp [dd, ud, r, RendererRev.Renderer.init, RendererRev.RenderTargets.new,
      RendererRev.RenderTargets.create_render_target_texture_view,
      RendererRev.Renderer.blurDownsampleDraws, RendererRev.Renderer.blurUpsampleDraws,
      RendererRev.BlurDownsampleRenderPass.new, RendererRev.BlurUpsampleRenderPass.new,
      List.range_succ]
  · simp [BloomRev.BlurPass.draw, BloomRev.BlurPass.new, BloomRev.FrameBuffers.new,
      BloomRev.FrameBuffers.create_bright_texture_view,
      BloomRev.FrameBuffers.create_bright_texture,
      BloomRev.FrameBuffers.create_bloom_blur_buffers,
      BloomRev.FrameBuffer.new_hdr_color, List.range_succ]

/-- C3 counterexample: at window size (256, 256) the blur stages recorded by
BlurPass::draw of bloom_pass.rs neither sample the previous stage's output
nor have pairwise distinct sources: all three sample the bright texture. -/
theorem c3_counterexample_shared_blur_source :
    ¬ ((∀ p ∈ ((BloomRev.BlurPass.new (BloomRev.FrameBuffers.new 256 256)).draw
            (BloomRev.FrameBuffers.new 256 256)).zip
          ((BloomRev.BlurPass.new (BloomRev.FrameBuffers.new 256 256)).draw
            (BloomRev.FrameBuffers.new 256 256)).tail,
        p.2.sampled = p.1.attachment) ∧
       List.Pairwise (fun d1 d2 => d1.sampled ≠ d2.sampled)
         ((BloomRev.BlurPass.new (BloomRev.FrameBuffers.new 256 256)).draw
           (BloomRev.FrameBuffers.new 256 256))) := by
  decide

/-- C4: every call to Renderer::render records the post-processing passes in
the fixed order bright pass, then the blur downsample passes in increasing
level order, then the blur upsample passes in increasing loop order, then
the compose pass, and records no post-processing pass out of this order;
this holds for a freshly constructed renderer and for a resized one. -/
theorem c4_render_pass_order (fmt : TextureFormat) (w h : Nat) (size : Size)
    (scene : RendererRev.entity.Scene) :
    ((RendererRev.Renderer.init fmt w h).render scene).2.filterMap RendererRev.postLabel =
      [RendererRev.PassLabel.brightPass,
       RendererRev.PassLabel.blurDownsample 0, RendererRev.PassLabel.blurDownsample 1,
       RendererRev.PassLabel.blurDownsample 2, RendererRev.PassLabel.blurDownsample 3,
       RendererRev.PassLabel.blurUpsample 0, RendererRev.PassLabel.blurUpsample 1,
       RendererRev.PassLabel.blurUpsample 2, RendererRev.PassLabel.blurUpsample 3,
       RendererRev.PassLabel.compose] ∧
    (((RendererRev.Renderer.init fmt w h).resize size).render scene).2.filterMap
        RendererRev.postLabel =
      [RendererRev.PassLabel.brightPass,
       RendererRev.PassLabel.blurDownsample 0, RendererRev.PassLabel.blurDownsample 1,
       RendererRev.PassLabel.blurDownsample 2, RendererRev.PassLabel.blurDownsample 3,
       RendererRev.PassLabel.blurUpsample 0, RendererRev.PassLabel.blurUpsample 1,
       RendererRev.PassLabel.blurUpsample 2, RendererRev.PassLabel.blurUpsample 3,
       RendererRev.PassLabel.compose] := by
  exact ⟨rfl, rfl⟩

/-- C5: Renderer::render first writes the per-frame uniforms, the bright-pass
uniform holding the scene's bloom intensity and threshold and the compose
uniform holding the scene camera's exposure, before recording any render
pass, then records only render passes, and finally submits and presents. -/
theorem c5_uniform_writes_first (fmt : TextureFormat) (w h : Nat)
    (scene : RendererRev.entity.Scene) :
    ∃ passes : List RendererRev.RenderCommand,
      ((RendererRev.Renderer.init fmt w h).render scene).2 =
        [RendererRev.RenderCommand.writeBuffer RendererRev.UniformBuf.particle
           RendererRev.UniformVal.particle,
         RendererRev.RenderCommand.writeBuffer RendererRev.UniformBuf.brightPass
           (RendererRev.UniformVal.bright
             { intensity := scene.post_processing.bloom.intensity,
               threshold := scene.post_processing.bloom.threshold }),
         RendererRev.RenderCommand.writeBuffer RendererRev.UniformBuf.compose
           (RendererRev.UniformVal.compose
             { exposure := scene.camera.camera.exposure })]
        ++ passes ++ [RendererRev.RenderCommand.submit, RendererRev.RenderCommand.present] ∧
      (∀ c ∈ passes, c.isBeginRenderPass = true) ∧
      ¬ (∃ c ∈ passes, c.isWriteBuffer = true) := by
  refine ⟨_, rfl, ?_, ?_⟩ <;>
    simp [RendererRev.Renderer.init, RendererRev.RenderTargets.new,
      RendererRev.RenderTargets.create_render_target_texture_view,
      RendererRev.RenderCommand.isBeginRenderPass, RendererRev.RenderCommand.isWriteBuffer,
      List.enum, List.enumFrom, List.range_succ]

/-- C6: when no adapter, no preferred surface format, or no device is
available, Renderer::new of both the renderer.rs revision and the
renderer/mod.rs revision returns an error and constructs no renderer
state. -/
theorem c6_new_propagates_driver_failure (env : RendererRev.GpuEnv)
    (w h wm hm : Nat)
    (hfail : env.adapter = none ∨ env.preferred_format = none ∨
      exceptIsOk env.device = false) :
    exceptIsOk (RendererRev.Renderer.new env w h) = false ∧
    exceptIsOk (ModRev.Renderer.new env wm hm) = false := by
  obtain ⟨a, f, d⟩ := env
  rcases a with _ | a <;> rcases f with _ | f <;> rcases d with d | d <;>
    simp_all [RendererRev.Renderer.new, ModRev.Renderer.new, exceptIsOk]

/-- C6 witness: with no adapter available both constructors fail. -/
theorem c6_witness_no_adapter :
    ((none : Option Unit) = none ∨
      (some TextureFormat.Bgra8UnormSrgb : Option TextureFormat) = none ∨
      exceptIsOk (Except.ok () : Except String Unit) = false) ∧
    exceptIsOk (RendererRev.Renderer.new
      { adapter := none, preferred_format := some TextureFormat.Bgra8UnormSrgb,
        device := Except.ok () } 800 600) = false ∧
    exceptIsOk (ModRev.Renderer.new
      { adapter := none, preferred_format := some TextureFormat.Bgra8UnormSrgb,
        device := Except.ok () } 800 600) = false :=
  ⟨Or.inl rfl,
   (c6_new_propagates_driver_failure
     { adapter := none, preferred_format := some TextureFormat.Bgra8UnormSrgb,
       device := Except.ok () } 800 600 800 600 (Or.inl rfl)).1,
   (c6_new_propagates_driver_failure
     { adapter := none, preferred_format := some TextureFormat.Bgra8UnormSrgb,
       device := Except.ok () } 800 600 800 600 (Or.inl rfl)).2⟩

/-- C7: in the flat renderer.rs revision, Renderer::new creates every
pipeline, bind group layout, shader module and geometry buffer exactly once
(its creation log lists each resource once), while Renderer::render leaves
every renderer field except the staging belt unchanged, creates no
resource, and only appends the two per-frame writes, a finish and a recall
to the staging belt; in the renderer/renderer.rs revision render leaves the
whole renderer state unchanged. -/
theorem c7_pipelines_built_once (r : FlatRev.Renderer) (scene : EntityB.Scene)
    (fmt : TextureFormat) (w h : Nat) (scene2 : EntityB.Scene)
    (r2 : RendererRev.Renderer) (scene3 : RendererRev.entity.Scene) :
    (FlatRev.Renderer.render r scene).1.surface_format = r.surface_format ∧
    (FlatRev.Renderer.render r scene).1.surface_width = r.surface_width ∧
    (FlatRev.Renderer.render r scene).1.surface_height = r.surface_height ∧
    (FlatRev.Renderer.render r scene).1.frame_buffers = r.frame_buffers ∧
    (FlatRev.Renderer.render r scene).1.sampler = r.sampler ∧
    (FlatRev.Renderer.render r scene).1.particle_render_bundle =
      r.particle_render_bundle ∧
    (FlatRev.Renderer.render r scene).1.composite_bind_group =
      r.composite_bind_group ∧
    (FlatRev.Renderer.render r scene).1.composite_render_pipeline =
      r.composite_render_pipeline ∧
    (FlatRev.Renderer.render r scene).1.staging_belt =
      r.staging_belt ++
        [FlatRev.BeltOp.write FlatRev.Resource.particleUniformBuffer
           FlatRev.UniformVal.particle,
         FlatRev.BeltOp.write FlatRev.Resource.compositeUniformBuffer
           (FlatRev.UniformVal.composite scene.camera.exposure),
         FlatRev.BeltOp.finish, FlatRev.BeltOp.recall] ∧
    FlatRev.createdResources (FlatRev.Renderer.render r scene).2 = [] ∧
    FlatRev.createdResources (FlatRev.Renderer.new fmt w h scene2).2 =
      FlatRev.Renderer.newCreatedResources ∧
    FlatRev.Renderer.newCreatedResources.Nodup ∧
    (RendererRev.Renderer.render r2 scene3).1 = r2 := by
  refine ⟨rfl, rfl, rfl, rfl, rfl, rfl, rfl, rfl, rfl, rfl, rfl, ?_, rfl⟩
  decide

/-- C8 (amended): CompositePass::new over a FrameBuffers built by
FrameBuffers::new creates exactly 3 composite bind groups (one per bloom
blur buffer), so the slice composite_bind_groups[3..4] taken in
CompositePass::draw is out of bounds and draw always panics from slice
indexing. -/
theorem c8_composite_slice_out_of_bounds (w h : Nat) :
    (BloomRev.CompositePass.new (BloomRev.FrameBuffers.new w h)).composite_bind_groups.length
        = 3 ∧
    (BloomRev.CompositePass.new (BloomRev.FrameBuffers.new w h)).draw = none := by
  exact ⟨rfl, rfl⟩

/-- C8 counterexample: at window size (1280, 720) the slice [3..4] of the
3-element composite bind group list is out of bounds, so draw panics (the
model returns none) rather than never panicking. -/
theorem c8_counterexample_draw_panics :
    (BloomRev.CompositePass.new (BloomRev.FrameBuffers.new 1280 720)).draw = none := by
  decide

/-- C9: FrameBuffers::resize produces exactly the state of a freshly built
FrameBuffers::new at the new size: color and depth textures at (w, h), the
bright texture and the 3 bloom blur buffers at (w / 4, h / 4), with the
same formats and usages as at construction. -/
theorem c9_resize_equals_new (fb : BloomRev.FrameBuffers) (w h : Nat) :
    fb.resize w h = BloomRev.FrameBuffers.new w h ∧
    (BloomRev.FrameBuffers.new w h).color_texture.width = w ∧
    (BloomRev.FrameBuffers.new w h).color_texture.height = h ∧
    (BloomRev.FrameBuffers.new w h).color_texture.format = TextureFormat.Rgba16Float ∧
    (BloomRev.FrameBuffers.new w h).color_texture.usage =
      TextureUsages.bindingAndAttachment ∧
    (BloomRev.FrameBuffers.new w h).depth_texture.width = w ∧
    (BloomRev.FrameBuffers.new w h).depth_texture.height = h ∧
    (BloomRev.FrameBuffers.new w h).depth_texture.format =
      TextureFormat.Depth24PlusStencil8 ∧
    (BloomRev.FrameBuffers.new w h).depth_texture.usage =
      TextureUsages.attachmentOnly ∧
    (BloomRev.FrameBuffers.new w h).bright_texture.width = w / 4 ∧
    (BloomRev.FrameBuffers.new w h).bright_texture.height = h / 4 ∧
    (BloomRev.FrameBuffers.new w h).bright_texture.format = TextureFormat.Rgba16Float ∧
    (BloomRev.FrameBuffers.new w h).bloom_blur_buffers.length = 3 ∧
    (∀ buf ∈ (BloomRev.FrameBuffers.new w h).bloom_blur_buffers,
      buf.texture.width = w / 4 ∧ buf.texture.height = h / 4 ∧
      buf.texture.format = TextureFormat.Rgba16Float ∧
      buf.texture.usage = TextureUsages.bindingAndAttachment ∧
      buf.format = TextureFormat.Rgba16Float) := by
  refine ⟨rfl, rfl, rfl, rfl, rfl, rfl, rfl, rfl, rfl, rfl, rfl, rfl, rfl, ?_⟩
  simp [BloomRev.FrameBuffers.new, BloomRev.FrameBuffers.create_bloom_blur_buffers,
    BloomRev.FrameBuffer.new_hdr_color, BloomRev.FrameBuffers.BLOOM_FORMAT,
    TextureUsages.bindingAndAttachment, List.range_succ]

/-- C10: App::on_resize ignores any resize event whose reported width or
height exceeds the window's current inner size, leaving the whole app state
unchanged; for any other event it sets the camera aspect ratio to width
over height (exact division in the model) and replaces the renderer with
the renderer resized to the new size, leaving every other field unchanged. -/
theorem c10_on_resize_guard (app : RendererRev.App) (size : Size) :
    (size.width > app.window_inner_size.width ∨
        size.height > app.window_inner_size.height →
      RendererRev.App.on_resize app size = app) ∧
    (size.width ≤ app.window_inner_size.width ∧
        size.height ≤ app.window_inner_size.height →
      (RendererRev.App.on_resize app size).scene.camera.camera.aspect =
          (size.width : Rat) / (size.height : Rat) ∧
      (RendererRev.App.on_resize app size).renderer =
          RendererRev.Renderer.resize app.renderer size ∧
      (RendererRev.App.on_resize app size).window_inner_size =
          app.window_inner_size ∧
      (RendererRev.App.on_resize app size).cursor_locked = app.cursor_locked ∧
      (RendererRev.App.on_resize app size).scene.camera.transform =
          app.scene.camera.transform ∧
      (RendererRev.App.on_resize app size).scene.camera.camera.fov =
          app.scene.camera.camera.fov ∧
      (RendererRev.App.on_resize app size).scene.camera.camera.exposure =
          app.scene.camera.camera.exposure ∧
      (RendererRev.App.on_resize app size).scene.particle = app.scene.particle ∧
      (RendererRev.App.on_resize app size).scene.post_processing =
          app.scene.post_processing) := by
  constructor
  · intro hgt
    simp only [RendererRev.App.on_resize]
    rw [if_pos]
    simp only [Bool.or_eq_true, decide_eq_true_eq]
    omega
  · intro hle
    simp only [RendererRev.App.on_resize]
    rw [if_neg]
    · exact ⟨rfl, rfl, rfl, rfl, rfl, rfl, rfl, rfl, rfl⟩
    · simp only [Bool.or_eq_true, decide_eq_true_eq]
      omega

/-- C10 witness: on an 800 by 600 window, a reported (1024, 768) resize is
ignored while a (400, 300) resize updates the aspect ratio and the
renderer. -/
theorem c10_witness_sample_app :
    RendererRev.App.on_resize RendererRev.sampleApp { width := 1024, height := 768 } =
      RendererRev.sampleApp ∧
    (RendererRev.App.on_resize RendererRev.sampleApp
        { width := 400, height := 300 }).scene.camera.camera.aspect =
      (400 : Rat) / 300 ∧
    (RendererRev.App.on_resize RendererRev.sampleApp
        { width := 400, height := 300 }).renderer =
      RendererRev.Renderer.resize RendererRev.sampleApp.renderer
        { width := 400, height := 300 } :=
  ⟨(c10_on_resize_guard RendererRev.sampleApp { width := 1024, height := 768 }).1
     (Or.inl (by decide)),
   ((c10_on_resize_guard RendererRev.sampleApp { width := 400, height := 300 }).2
     (by exact ⟨by decide, by decide⟩)).1,
   ((c10_on_resize_guard RendererRev.sampleApp { width := 400, height := 300 }).2
     (by exact ⟨by decide, by decide⟩)).2.1⟩
